import Mathlib

/-
Verification of the TLE handling core of sgp4-rs (`src/lib.rs`).

Rust `&str` values are modelled as lists of Unicode scalar values
(`List Char`); `str::len` is the UTF-8 byte count, `str::trim` drops the
characters with the Unicode `White_Space` property from both ends, and
`str::split("\n")` splits at every newline, keeping empty segments.
`chrono::DateTime<Utc>` is modelled as a signed count of nanoseconds
(`Int`), the precision chrono stores; subtraction of two instants is exact.
The `sgp4_sys` module is declared in `lib.rs` but its source is not part of
`src/`, so the external propagator is kept abstract behind an interface
record, following the description in the spec of an external collaborator.
-/

namespace Sgp4Rs

/-- Rust string slices, modelled as their sequence of Unicode scalar values. -/
abbrev Str : Type := List Char

/-- Rust `char::is_whitespace`: the Unicode `White_Space` property. -/
def isRustWhitespace (c : Char) : Bool :=
  c.val == 0x09 || c.val == 0x0A || c.val == 0x0B || c.val == 0x0C ||
  c.val == 0x0D || c.val == 0x20 || c.val == 0x85 || c.val == 0xA0 ||
  c.val == 0x1680 || (0x2000 ≤ c.val && c.val ≤ 0x200A) ||
  c.val == 0x2028 || c.val == 0x2029 || c.val == 0x202F ||
  c.val == 0x205F || c.val == 0x3000

/-- Rust `str::trim`: remove leading and trailing whitespace. -/
def trim (s : Str) : Str :=
  ((s.dropWhile isRustWhitespace).reverse.dropWhile isRustWhitespace).reverse

/-- Rust `str::len`: the length of the slice in UTF-8 bytes. -/
def strLen (s : Str) : Nat := (s.map Char.utf8Size).sum

/-- Rust `str::split` with the separator `"\n"`: split at every newline,
keeping empty segments (the empty string yields one empty segment). -/
def splitNl : Str → List Str
  | [] => [[]]
  | c :: rest =>
    if c = '\n' then [] :: splitNl rest
    else
      match splitNl rest with
      | [] => [[c]]
      | seg :: segs => (c :: seg) :: segs

namespace sgp4_sys

/-- Modelled from the spec: run-mode selector of the external SGP4 ingestion
routine (spec section 4.1: "verification run mode"); the source of the
`sgp4_sys` module is not under `src/`. Variants follow the standard SGP4 options. -/
inductive RunType : Type
  | Verification : RunType
  | Catalog : RunType

/-- Modelled from the spec: operation-mode selector of the external SGP4
routines (spec section 4.1: the "improved" operation mode); the source of
the `sgp4_sys` module is not under `src/`. -/
inductive OperationMode : Type
  | AirForceSpaceCommand : OperationMode
  | Improved : OperationMode

/-- Modelled from the spec: gravitational-constant model selector (spec
section 4.1: "WGS-84 gravitational constants"); the source of the
`sgp4_sys` module is not under `src/`. -/
inductive GravitationalConstant : Type
  | Wgs72Old : GravitationalConstant
  | Wgs72 : GravitationalConstant
  | Wgs84 : GravitationalConstant

end sgp4_sys

/-- Modelled from the spec: the external SGP4 propagator behind `sgp4_sys`
(spec section 6), kept abstract since its source is not under `src/`.
`OrbitalElementSet` is the opaque element handle, `to_orbital_elements` the
ingestion routine, `epoch` the epoch read (a nanosecond timestamp), and
`run_sgp4` the propagation call taking the elapsed time (an `f64` number of
minutes; modelled as an exact rational, which covers every value the core
actually passes, since an `i64` whole-day count converts to `f64` exactly in
the representable range of chrono). `debugFormat` is the Rust `Debug` rendering
of an ingestion error, used by `format!("{:?}", e)`. -/
structure Sgp4Sys : Type 1 where
  OrbitalElementSet : Type
  IngestError : Type
  SgpError : Type
  F64 : Type
  to_orbital_elements : Str → Str → sgp4_sys.RunType → sgp4_sys.OperationMode →
    sgp4_sys.GravitationalConstant → Except IngestError OrbitalElementSet
  debugFormat : IngestError → String
  epoch : OrbitalElementSet → Int
  run_sgp4 : OrbitalElementSet → sgp4_sys.GravitationalConstant → ℚ →
    Except SgpError ((F64 × F64 × F64) × (F64 × F64 × F64))

/-- `chrono::DateTime<Utc>`, modelled as nanoseconds since the Unix epoch. -/
abbrev DateTimeUtc : Type := Int

namespace chrono

/-- Whole-seconds field of a chrono `Duration` holding `nanos` nanoseconds
(chrono normalises so that the nanosecond remainder lies in `[0, 10^9)`). -/
def secsPart (nanos : Int) : Int := Int.fdiv nanos 1000000000

/-- Nanosecond remainder of a chrono `Duration`, in `[0, 10^9)`. -/
def nanosPart (nanos : Int) : Int := Int.emod nanos 1000000000

/-- chrono `Duration::num_seconds`: the number of whole seconds, truncated
toward zero. -/
def num_seconds (nanos : Int) : Int :=
  if secsPart nanos < 0 ∧ 0 < nanosPart nanos then secsPart nanos + 1
  else secsPart nanos

/-- chrono `Duration::num_days`: `num_seconds() / 86400` with Rust `i64`
division, which truncates toward zero. -/
def num_days (nanos : Int) : Int := Int.tdiv (num_seconds nanos) 86400

end chrono

/-- `Error` from `lib.rs`: the three public error kinds. -/
inductive Error : Type
  | MalformedTwoLineElement : String → Error
  | PropagationError : Error
  | UnknownError : String → Error
deriving DecidableEq

/-- `StateVector` from `lib.rs`, over the scalar type of the propagator. -/
structure StateVector (F64 : Type) : Type where
  position : F64 × F64 × F64
  velocity : F64 × F64 × F64

/-- `TLE_LINE_LENGTH` from `lib.rs`. -/
def TLE_LINE_LENGTH : Nat := 69

/-- `TwoLineElement` from `lib.rs`: the validated handle owning the opaque
orbital element set. -/
structure TwoLineElement (S : Sgp4Sys) : Type where
  elements : S.OrbitalElementSet

/-- The ingestion step of `TwoLineElement::new`: forward the two trimmed,
length-checked lines to `sgp4_sys::to_orbital_elements` with the fixed
configuration, re-wrapping an ingestion failure as
`MalformedTwoLineElement` over its `Debug` rendering. -/
def ingestForward (S : Sgp4Sys) (line1 line2 : Str) :
    Except Error (TwoLineElement S) :=
  match S.to_orbital_elements line1 line2 sgp4_sys.RunType.Verification
      sgp4_sys.OperationMode.Improved sgp4_sys.GravitationalConstant.Wgs84 with
  | Except.error e => Except.error (Error.MalformedTwoLineElement (S.debugFormat e))
  | Except.ok elements => Except.ok ⟨elements⟩

/-- `TwoLineElement::new` from `lib.rs`: trim both lines, check each has
exactly `TLE_LINE_LENGTH` bytes, then ingest. -/
def TwoLineElement.new (S : Sgp4Sys) (line1 line2 : Str) :
    Except Error (TwoLineElement S) :=
  let line1 := trim line1
  let line2 := trim line2
  if strLen line1 ≠ TLE_LINE_LENGTH then
    Except.error (Error.MalformedTwoLineElement
      ("Line 1 is the wrong length. Expected " ++ toString TLE_LINE_LENGTH ++
        ", but got " ++ toString (strLen line1)))
  else if strLen line2 ≠ TLE_LINE_LENGTH then
    Except.error (Error.MalformedTwoLineElement
      ("Line 2 is the wrong length. Expected " ++ toString TLE_LINE_LENGTH ++
        ", but got " ++ toString (strLen line2)))
  else
    ingestForward S line1 line2

/-- `TwoLineElement::from_lines` from `lib.rs`: split on `"\n"`; three
segments drop the first (`split_off(1)`), two segments are used as they
are, any other count is an error; then delegate to `new`. -/
def TwoLineElement.from_lines (S : Sgp4Sys) (combined_lines : Str) :
    Except Error (TwoLineElement S) :=
  match splitNl combined_lines with
  | [l1, l2] => TwoLineElement.new S l1 l2
  | [_, l1, l2] => TwoLineElement.new S l1 l2
  | ls => Except.error (Error.MalformedTwoLineElement
      ("Expected two lines, got " ++ toString ls.length))

/-- `TwoLineElement::epoch` from `lib.rs`. -/
def TwoLineElement.epoch {S : Sgp4Sys} (tle : TwoLineElement S) :
    Except Error DateTimeUtc :=
  Except.ok (S.epoch tle.elements)

/-- The elapsed-time value `propagate_to` computes and hands to `run_sgp4`:
`(t - tle_epoch).num_days() as f64` from `lib.rs` (the `i64` to `f64` cast
is exact for every chrono-representable difference, so it is modelled as
the exact rational). -/
def min_since_epoch (t tle_epoch : DateTimeUtc) : ℚ :=
  ((chrono.num_days (t - tle_epoch) : Int) : ℚ)

/-- `TwoLineElement::propagate_to` from `lib.rs`. -/
def TwoLineElement.propagate_to {S : Sgp4Sys} (tle : TwoLineElement S)
    (t : DateTimeUtc) : Except Error (StateVector S.F64) :=
  let tle_epoch := S.epoch tle.elements
  match S.run_sgp4 tle.elements sgp4_sys.GravitationalConstant.Wgs84
      (min_since_epoch t tle_epoch) with
  | Except.error _e => Except.error Error.PropagationError
  | Except.ok (r, v) => Except.ok { position := r, velocity := v }

/-- The elapsed-time value the spec requires (spec section 4.2): the signed
difference between the target time and the epoch, expressed as an exact
count of minutes, sub-second precision included. -/
def specMinutesSinceEpoch (t tle_epoch : DateTimeUtc) : ℚ :=
  ((t - tle_epoch : Int) : ℚ) / (60 * 1000000000)

/-- `TwoLineElement::from_lines` with the slice indexing of the source made
explicit: Rust `lines[0]` / `lines[1]` panic when out of bounds, which is
modelled by `none`; every non-panicking path yields `some` of the result. -/
def TwoLineElement.from_lines_checked (S : Sgp4Sys) (combined_lines : Str) :
    Option (Except Error (TwoLineElement S)) :=
  let ls := splitNl combined_lines
  if ls.length = 3 ∨ ls.length = 2 then
    let lines := if ls.length = 3 then ls.drop 1 else ls
    match lines[0]?, lines[1]? with
    | some l1, some l2 => some (TwoLineElement.new S l1 l2)
    | _, _ => none
  else
    some (Except.error (Error.MalformedTwoLineElement
      ("Expected two lines, got " ++ toString ls.length)))

/-- A result lies in the declared error taxonomy: it is a success or one of
the three public error kinds of `Error`. -/
def declaredOutcome {α : Type} (r : Except Error α) : Prop :=
  (∃ a, r = Except.ok a) ∨
  (∃ m, r = Except.error (Error.MalformedTwoLineElement m)) ∨
  r = Except.error Error.PropagationError ∨
  (∃ m, r = Except.error (Error.UnknownError m))

/-- A concrete propagator whose ingestion and propagation always succeed,
used to instantiate the abstract interface on sample inputs. -/
@[reducible] def unitSys : Sgp4Sys where
  OrbitalElementSet := Unit
  IngestError := String
  SgpError := Unit
  F64 := Int
  to_orbital_elements := fun _ _ _ _ _ => Except.ok ()
  debugFormat := fun e => e
  epoch := fun _ => 0
  run_sgp4 := fun _ _ _ => Except.ok ((1, 2, 3), (4, 5, 6))

/-- A concrete propagator whose ingestion and propagation always fail,
used to instantiate the failure paths on sample inputs. -/
@[reducible] def failSys : Sgp4Sys where
  OrbitalElementSet := Unit
  IngestError := String
  SgpError := Unit
  F64 := Int
  to_orbital_elements := fun _ _ _ _ _ => Except.error ("ingest failed")
  debugFormat := fun e => e
  epoch := fun _ => 0
  run_sgp4 := fun _ _ _ => Except.error ()

/-- A 69-character line whose first character occupies two UTF-8 bytes, so
its character length is 69 while its byte length is 70. -/
def wideLine : Str := 'é' :: List.replicate 68 'a'

/-- A 69-character ASCII line (69 bytes as well). -/
def asciiLine : Str := List.replicate 69 '2'

/-- Line 1 of the ISS element set used by the tests of the repository. -/
def issLine1 : Str :=
  "1 25544U 98067A   20148.21301450  .00001715  00000-0  38778-4 0  9992".data

/-- Line 2 of the ISS element set used by the tests of the repository. -/
def issLine2 : Str :=
  "2 25544  51.6435  92.2789 0002570 358.0648 144.9972 15.49396855228767".data

/-- Every `Except Error` result lies in the declared error taxonomy. -/
theorem declaredOutcome_of {α : Type} (r : Except Error α) : declaredOutcome r := by
  rcases r with e | a
  · rcases e with m | _ | m
    · exact Or.inr (Or.inl ⟨m, rfl⟩)
    · exact Or.inr (Or.inr (Or.inl rfl))
    · exact Or.inr (Or.inr (Or.inr ⟨m, rfl⟩))
  · exact Or.inl ⟨a, rfl⟩

/-- Splitting a string that starts with a newline-free prefix followed by a
newline yields that prefix as the first segment. -/
theorem splitNl_append_cons (h rest : Str) (hh : '\n' ∉ h) :
    splitNl (h ++ '\n' :: rest) = h :: splitNl rest := by
  induction h with
  | nil => simp [splitNl]
  | cons c cs ih =>
    rw [List.mem_cons] at hh
    push_neg at hh
    rw [List.cons_append]
    rw [show splitNl (c :: (cs ++ '\n' :: rest)) =
      (if c = '\n' then [] :: splitNl (cs ++ '\n' :: rest)
       else match splitNl (cs ++ '\n' :: rest) with
            | [] => [[c]]
            | seg :: segs => (c :: seg) :: segs) from rfl]
    rw [if_neg (fun hc => hh.1 hc.symm)]
    rw [ih hh.2]

/-- Splitting a newline-free string yields the one-segment list. -/
theorem splitNl_no_newline (s : Str) (hs : '\n' ∉ s) : splitNl s = [s] := by
  induction s with
  | nil => rfl
  | cons c cs ih =>
    rw [List.mem_cons] at hs
    push_neg at hs
    rw [show splitNl (c :: cs) =
      (if c = '\n' then [] :: splitNl cs
       else match splitNl cs with
            | [] => [[c]]
            | seg :: segs => (c :: seg) :: segs) from rfl]
    rw [if_neg (fun hc => hs.1 hc.symm)]
    rw [ih hs.2]

/-- C1: `propagate_to` hands the external propagator the value
`min_since_epoch`, and that value is `(t - tle_epoch).num_days()` cast to
floating point — the elapsed time truncated to whole days — not the signed
floating-point count of minutes the claim requires: at 90 minutes past the
epoch the code passes 0 while the required minute count is 90. -/
theorem propagate_to_passes_whole_days :
    (∀ (S : Sgp4Sys) (tle : TwoLineElement S) (t : DateTimeUtc),
      tle.propagate_to t =
        match S.run_sgp4 tle.elements sgp4_sys.GravitationalConstant.Wgs84
            (min_since_epoch t (S.epoch tle.elements)) with
        | Except.error _ => Except.error Error.PropagationError
        | Except.ok (r, v) => Except.ok { position := r, velocity := v }) ∧
    min_since_epoch (90 * 60 * 1000000000) 0 = 0 ∧
    specMinutesSinceEpoch (90 * 60 * 1000000000) 0 = 90 := by
  refine ⟨fun S tle t => rfl, ?_, ?_⟩
  · unfold min_since_epoch
    have h : chrono.num_days (90 * 60 * 1000000000 - 0) = 0 := by decide
    rw [h]; norm_num
  · unfold specMinutesSinceEpoch; norm_num

/-- C2 counterexample: the claim as stated speaks of character length, but
the code checks the UTF-8 byte length (Rust `str::len`). A first line of 69
characters whose first character takes two bytes is rejected with a length
error reporting 70, even though ingestion would accept the lines, so the
length check does not pass when the character length is 69. -/
theorem new_char_length_counterexample :
    (trim wideLine).length = 69 ∧
    (trim asciiLine).length = 69 ∧
    unitSys.to_orbital_elements (trim wideLine) (trim asciiLine)
      sgp4_sys.RunType.Verification sgp4_sys.OperationMode.Improved
      sgp4_sys.GravitationalConstant.Wgs84 = Except.ok () ∧
    TwoLineElement.new unitSys wideLine asciiLine =
      Except.error (Error.MalformedTwoLineElement
        ("Line 1 is the wrong length. Expected 69, but got 70")) := by
  refine ⟨by decide, by decide, rfl, ?_⟩
  have hw : strLen (trim wideLine) = 70 := by decide
  unfold TwoLineElement.new
  simp only [hw]
  norm_num [TLE_LINE_LENGTH]
  decide

/-- C2 (amended): for every pair of input strings, if either line after
trimming has UTF-8 byte length different from `TLE_LINE_LENGTH` = 69 then
`new` returns a `MalformedTwoLineElement` error whose message names the
offending line and states the expected length (69, rendered into the
message) and the actual byte length; if both trimmed lines have byte length
69 the length check passes and the lines are forwarded to ingestion. -/
theorem new_length_validation (S : Sgp4Sys) (line1 line2 : Str) :
    TLE_LINE_LENGTH = 69 ∧
    toString TLE_LINE_LENGTH = "69" ∧
    (strLen (trim line1) ≠ TLE_LINE_LENGTH →
      TwoLineElement.new S line1 line2 = Except.error (Error.MalformedTwoLineElement
        ("Line 1 is the wrong length. Expected " ++ toString TLE_LINE_LENGTH ++
          ", but got " ++ toString (strLen (trim line1))))) ∧
    (strLen (trim line1) = TLE_LINE_LENGTH → strLen (trim line2) ≠ TLE_LINE_LENGTH →
      TwoLineElement.new S line1 line2 = Except.error (Error.MalformedTwoLineElement
        ("Line 2 is the wrong length. Expected " ++ toString TLE_LINE_LENGTH ++
          ", but got " ++ toString (strLen (trim line2))))) ∧
    (strLen (trim line1) = TLE_LINE_LENGTH → strLen (trim line2) = TLE_LINE_LENGTH →
      TwoLineElement.new S line1 line2 = ingestForward S (trim line1) (trim line2)) := by
  refine ⟨rfl, by decide, ?_, ?_, ?_⟩
  · intro h1; unfold TwoLineElement.new; simp [h1]
  · intro h1 h2; unfold TwoLineElement.new; simp [h1, h2]
  · intro h1 h2; unfold TwoLineElement.new; simp [h1, h2]

/-- C2 witness: a 68-character first line is rejected with the Line 1
length message. -/
theorem new_length_validation_witness :
    strLen (trim (List.replicate 68 'a')) ≠ TLE_LINE_LENGTH ∧
    TwoLineElement.new unitSys (List.replicate 68 'a') asciiLine =
      Except.error (Error.MalformedTwoLineElement
        ("Line 1 is the wrong length. Expected " ++ toString TLE_LINE_LENGTH ++
          ", but got " ++ toString (strLen (trim (List.replicate 68 'a'))))) :=
  ⟨by decide,
   (new_length_validation unitSys (List.replicate 68 'a') asciiLine).2.2.1 (by decide)⟩

/-- C3: `from_lines` splits its input on newlines; two (in particular two
non-empty) segments are used as line 1 and line 2, three segments discard
the first as a header, and any other segment count yields a
`MalformedTwoLineElement` error stating the expected count against the
actual one; the accepted cases delegate to `new` without re-validating
length themselves. -/
theorem from_lines_dispatch {S : Sgp4Sys} (s : Str) :
    (∀ l1 l2 : Str, splitNl s = [l1, l2] → l1 ≠ [] → l2 ≠ [] →
      TwoLineElement.from_lines S s = TwoLineElement.new S l1 l2) ∧
    (∀ hdr l1 l2 : Str, splitNl s = [hdr, l1, l2] →
      TwoLineElement.from_lines S s = TwoLineElement.new S l1 l2) ∧
    ((splitNl s).length ≠ 2 → (splitNl s).length ≠ 3 →
      TwoLineElement.from_lines S s = Except.error (Error.MalformedTwoLineElement
        ("Expected two lines, got " ++ toString (splitNl s).length))) := by
  refine ⟨?_, ?_, ?_⟩
  · intro l1 l2 h _hne1 _hne2
    unfold TwoLineElement.from_lines; rw [h]
  · intro hdr l1 l2 h
    unfold TwoLineElement.from_lines; rw [h]
  · intro h2 h3
    unfold TwoLineElement.from_lines
    rcases hs : splitNl s with _ | ⟨a, _ | ⟨b, _ | ⟨c, _ | ⟨d, tl⟩⟩⟩⟩
    · rfl
    · rfl
    · rw [hs] at h2; exact absurd rfl h2
    · rw [hs] at h3; exact absurd rfl h3
    · rfl

/-- C3 witness: a two-segment input, a three-segment input and a
one-segment input exercise the three dispatch cases. -/
theorem from_lines_dispatch_witness :
    splitNl ("ab\ncd".data) = ["ab".data, "cd".data] ∧
    TwoLineElement.from_lines unitSys ("ab\ncd".data) =
      TwoLineElement.new unitSys ("ab".data) ("cd".data) ∧
    TwoLineElement.from_lines unitSys ("hd\nab\ncd".data) =
      TwoLineElement.new unitSys ("ab".data) ("cd".data) ∧
    TwoLineElement.from_lines unitSys ("abc".data) =
      Except.error (Error.MalformedTwoLineElement
        ("Expected two lines, got " ++ toString (splitNl ("abc".data)).length)) :=
  ⟨by decide,
   (from_lines_dispatch ("ab\ncd".data)).1 ("ab".data) ("cd".data)
     (by decide) (by decide) (by decide),
   (from_lines_dispatch ("hd\nab\ncd".data)).2.1 ("hd".data) ("ab".data) ("cd".data)
     (by decide),
   (from_lines_dispatch ("abc".data)).2.2 (by decide) (by decide)⟩

/-- C4: for a two-segment blob and a non-empty newline-free header line,
`from_lines` of the blob and of the header-prefixed blob produce equal
results. -/
theorem from_lines_header_invariance {S : Sgp4Sys} (hdr b : Str)
    (_hne : hdr ≠ []) (hnl : '\n' ∉ hdr) (hb : (splitNl b).length = 2) :
    TwoLineElement.from_lines S (hdr ++ '\n' :: b) = TwoLineElement.from_lines S b := by
  obtain ⟨l1, l2, hb2⟩ := List.length_eq_two.mp hb
  unfold TwoLineElement.from_lines
  rw [splitNl_append_cons hdr b hnl, hb2]

/-- C4 witness: prefixing a two-line blob with a satellite-name header
leaves the result unchanged. -/
theorem from_lines_header_invariance_witness :
    ("ISS (ZARYA)".data ≠ ([] : Str)) ∧
    ('\n' ∉ "ISS (ZARYA)".data) ∧
    (splitNl ("ab\ncd".data)).length = 2 ∧
    TwoLineElement.from_lines unitSys ("ISS (ZARYA)".data ++ '\n' :: "ab\ncd".data) =
      TwoLineElement.from_lines unitSys ("ab\ncd".data) :=
  ⟨by decide, by decide, by decide,
   from_lines_header_invariance (S := unitSys) _ _ (by decide) (by decide) (by decide)⟩

/-- C5: `epoch` on a constructed `TwoLineElement` always returns a success
value, and repeated calls on the same handle return equal results. -/
theorem epoch_always_ok {S : Sgp4Sys} (tle : TwoLineElement S) :
    (∃ t : DateTimeUtc, tle.epoch = Except.ok t) ∧
    (∀ r₁ r₂ : Except Error DateTimeUtc, tle.epoch = r₁ → tle.epoch = r₂ → r₁ = r₂) :=
  ⟨⟨S.epoch tle.elements, rfl⟩, fun _ _ h₁ h₂ => h₁.symm.trans h₂⟩

/-- C5 witness: `epoch` on a sample handle returns a success value, twice
the same one. -/
theorem epoch_always_ok_witness :
    (∃ t : DateTimeUtc, TwoLineElement.epoch (S := unitSys) ⟨()⟩ = Except.ok t) ∧
    (Except.ok (0 : DateTimeUtc) : Except Error DateTimeUtc) =
      Except.ok (0 : DateTimeUtc) :=
  ⟨(epoch_always_ok (S := unitSys) ⟨()⟩).1,
   (epoch_always_ok (S := unitSys) ⟨()⟩).2 _ _ rfl rfl⟩

/-- C6: when the external propagator fails, `propagate_to` returns the
detail-free `PropagationError`, discarding the underlying failure value;
when it succeeds, `propagate_to` wraps exactly the returned position and
velocity vectors in a `StateVector`. -/
theorem propagate_to_error_mapping {S : Sgp4Sys} (tle : TwoLineElement S)
    (t : DateTimeUtc) :
    (∀ e, S.run_sgp4 tle.elements sgp4_sys.GravitationalConstant.Wgs84
        (min_since_epoch t (S.epoch tle.elements)) = Except.error e →
      tle.propagate_to t = Except.error Error.PropagationError) ∧
    (∀ r v, S.run_sgp4 tle.elements sgp4_sys.GravitationalConstant.Wgs84
        (min_since_epoch t (S.epoch tle.elements)) = Except.ok (r, v) →
      tle.propagate_to t = Except.ok { position := r, velocity := v }) := by
  constructor
  · intro e he; simp only [TwoLineElement.propagate_to]; rw [he]
  · intro r v h; simp only [TwoLineElement.propagate_to]; rw [h]

/-- C6 witness: a succeeding propagator yields its vectors wrapped in a
`StateVector`; a failing propagator yields `PropagationError`. -/
theorem propagate_to_error_mapping_witness :
    TwoLineElement.propagate_to (S := unitSys) ⟨()⟩ 0 =
      Except.ok { position := (1, 2, 3), velocity := (4, 5, 6) } ∧
    TwoLineElement.propagate_to (S := failSys) ⟨()⟩ 0 =
      Except.error Error.PropagationError :=
  ⟨(propagate_to_error_mapping (S := unitSys) ⟨()⟩ 0).2 (1, 2, 3) (4, 5, 6) rfl,
   (propagate_to_error_mapping (S := failSys) ⟨()⟩ 0).1 () rfl⟩

/-- C7 counterexample: the claim as stated speaks of 69-character trimmed
lines, but the length gate checks UTF-8 bytes. For a first line of 69
characters and 70 bytes, a rejecting ingestion routine (failure detail
"ingest failed") never gets its detail preserved: `new` returns the Line 1
length error instead, so the claim fails on character-length inputs. -/
theorem new_ingestion_charlen_counterexample :
    (trim wideLine).length = 69 ∧
    (trim asciiLine).length = 69 ∧
    failSys.to_orbital_elements (trim wideLine) (trim asciiLine)
      sgp4_sys.RunType.Verification sgp4_sys.OperationMode.Improved
      sgp4_sys.GravitationalConstant.Wgs84 = Except.error ("ingest failed") ∧
    TwoLineElement.new failSys wideLine asciiLine =
      Except.error (Error.MalformedTwoLineElement
        ("Line 1 is the wrong length. Expected 69, but got 70")) ∧
    TwoLineElement.new failSys wideLine asciiLine ≠
      Except.error (Error.MalformedTwoLineElement
        (failSys.debugFormat ("ingest failed"))) := by
  have hmain : TwoLineElement.new failSys wideLine asciiLine =
      Except.error (Error.MalformedTwoLineElement
        ("Line 1 is the wrong length. Expected 69, but got 70")) := by
    have hw : strLen (trim wideLine) = 70 := by decide
    unfold TwoLineElement.new
    simp only [hw]
    norm_num [TLE_LINE_LENGTH]
    decide
  refine ⟨by decide, by decide, rfl, hmain, ?_⟩
  rw [hmain]
  intro h
  simp only [Except.error.injEq, Error.MalformedTwoLineElement.injEq] at h
  exact absurd h (by decide)

/-- C7 (amended): with both trimmed lines 69 UTF-8 bytes long (rather than
69 characters; the two coincide on ASCII input), `new` is decided by the
ingestion routine invoked at the fixed configuration (verification run
mode, improved operation mode, WGS-84 constants): an ingestion failure is
re-wrapped as `MalformedTwoLineElement` carrying the `Debug` rendering of
the failure unchanged, and an ingestion success yields the handle. -/
theorem new_ingestion_wrapping {S : Sgp4Sys} (line1 line2 : Str)
    (h1 : strLen (trim line1) = TLE_LINE_LENGTH)
    (h2 : strLen (trim line2) = TLE_LINE_LENGTH) :
    (∀ e, S.to_orbital_elements (trim line1) (trim line2) sgp4_sys.RunType.Verification
        sgp4_sys.OperationMode.Improved sgp4_sys.GravitationalConstant.Wgs84 =
        Except.error e →
      TwoLineElement.new S line1 line2 =
        Except.error (Error.MalformedTwoLineElement (S.debugFormat e))) ∧
    (∀ els, S.to_orbital_elements (trim line1) (trim line2) sgp4_sys.RunType.Verification
        sgp4_sys.OperationMode.Improved sgp4_sys.GravitationalConstant.Wgs84 =
        Except.ok els →
      TwoLineElement.new S line1 line2 = Except.ok ⟨els⟩) := by
  constructor
  · intro e he
    unfold TwoLineElement.new
    simp [h1, h2]
    unfold ingestForward
    rw [he]
  · intro els he
    unfold TwoLineElement.new
    simp [h1, h2]
    unfold ingestForward
    rw [he]

/-- C7 witness: on the ISS element set, a failing ingestion routine has its
failure text preserved inside `MalformedTwoLineElement`, and a succeeding
one yields the handle. -/
theorem new_ingestion_wrapping_witness :
    strLen (trim issLine1) = TLE_LINE_LENGTH ∧
    strLen (trim issLine2) = TLE_LINE_LENGTH ∧
    TwoLineElement.new failSys issLine1 issLine2 =
      Except.error (Error.MalformedTwoLineElement ("ingest failed")) ∧
    TwoLineElement.new unitSys issLine1 issLine2 = Except.ok ⟨()⟩ :=
  ⟨by decide, by decide,
   (new_ingestion_wrapping (S := failSys) issLine1 issLine2 (by decide) (by decide)).1
     ("ingest failed") rfl,
   (new_ingestion_wrapping (S := unitSys) issLine1 issLine2 (by decide) (by decide)).2
     () rfl⟩

/-- C8: `propagate_to` is deterministic — for a fixed handle and a fixed
target time, any two results of invoking it are equal (the embedding is
pure, so the handle itself cannot be mutated by a call). -/
theorem propagate_to_deterministic {S : Sgp4Sys} (tle : TwoLineElement S)
    (t : DateTimeUtc) (r₁ r₂ : Except Error (StateVector S.F64))
    (h₁ : tle.propagate_to t = r₁) (h₂ : tle.propagate_to t = r₂) : r₁ = r₂ :=
  h₁.symm.trans h₂

/-- C8 witness: two invocations on a sample handle agree. -/
theorem propagate_to_deterministic_witness :
    (Except.ok { position := (1, 2, 3), velocity := (4, 5, 6) } :
      Except Error (StateVector unitSys.F64)) =
      Except.ok { position := (1, 2, 3), velocity := (4, 5, 6) } :=
  propagate_to_deterministic (S := unitSys) ⟨()⟩ 0 _ _ rfl rfl

/-- C9: every public operation is total — `from_lines` with the slice
indexing of the source made explicit never reaches an out-of-bounds access
(`none`), and every result of the four public operations is a success or
one of the three declared error kinds. -/
theorem public_ops_total (S : Sgp4Sys) (s line1 line2 : Str) (t : DateTimeUtc)
    (tle : TwoLineElement S) :
    TwoLineElement.from_lines_checked S s = some (TwoLineElement.from_lines S s) ∧
    declaredOutcome (TwoLineElement.new S line1 line2) ∧
    declaredOutcome (TwoLineElement.from_lines S s) ∧
    declaredOutcome tle.epoch ∧
    declaredOutcome (tle.propagate_to t) := by
  refine ⟨?_, declaredOutcome_of _, declaredOutcome_of _, declaredOutcome_of _,
    declaredOutcome_of _⟩
  unfold TwoLineElement.from_lines_checked TwoLineElement.from_lines
  rcases hs : splitNl s with _ | ⟨a, _ | ⟨b, _ | ⟨c, _ | ⟨d, tl⟩⟩⟩⟩ <;> simp

/-- C10: a three-segment input has its first segment discarded without
inspection, so a valid two-line element set followed by a single trailing
newline parses its first line as a header: construction fails with the
Line 2 length error on the empty final segment, while the same input
without the trailing newline succeeds whenever ingestion accepts it. -/
theorem trailing_newline_misparse {S : Sgp4Sys} (l1 l2 : Str)
    (h1 : '\n' ∉ l1) (h2 : '\n' ∉ l2)
    (hl1 : strLen (trim l1) = TLE_LINE_LENGTH)
    (hl2 : strLen (trim l2) = TLE_LINE_LENGTH) :
    splitNl (l1 ++ '\n' :: (l2 ++ ['\n'])) = [l1, l2, []] ∧
    TwoLineElement.from_lines S (l1 ++ '\n' :: (l2 ++ ['\n'])) =
      TwoLineElement.new S l2 [] ∧
    TwoLineElement.from_lines S (l1 ++ '\n' :: (l2 ++ ['\n'])) =
      Except.error (Error.MalformedTwoLineElement
        ("Line 2 is the wrong length. Expected " ++ toString TLE_LINE_LENGTH ++
          ", but got " ++ toString 0)) ∧
    (∀ els, S.to_orbital_elements (trim l1) (trim l2) sgp4_sys.RunType.Verification
        sgp4_sys.OperationMode.Improved sgp4_sys.GravitationalConstant.Wgs84 =
        Except.ok els →
      TwoLineElement.from_lines S (l1 ++ '\n' :: l2) = Except.ok ⟨els⟩) := by
  have e1 : splitNl (l2 ++ ['\n']) = [l2, []] := by
    have h := splitNl_append_cons l2 [] h2
    simpa [splitNl] using h
  have e0 : splitNl (l1 ++ '\n' :: (l2 ++ ['\n'])) = [l1, l2, []] := by
    rw [splitNl_append_cons l1 _ h1, e1]
  have hnew : TwoLineElement.from_lines S (l1 ++ '\n' :: (l2 ++ ['\n'])) =
      TwoLineElement.new S l2 [] := by
    unfold TwoLineElement.from_lines; rw [e0]
  refine ⟨e0, hnew, ?_, ?_⟩
  · rw [hnew]
    unfold TwoLineElement.new
    simp [hl2, TLE_LINE_LENGTH, show strLen (trim ([] : Str)) = 0 from rfl]
  · intro els he
    have e2 : splitNl (l1 ++ '\n' :: l2) = [l1, l2] := by
      rw [splitNl_append_cons l1 l2 h1, splitNl_no_newline l2 h2]
    unfold TwoLineElement.from_lines
    rw [e2]
    unfold TwoLineElement.new
    simp [hl1, hl2]
    unfold ingestForward
    rw [he]

/-- C10 witness: the ISS element set with a trailing newline fails with the
Line 2 length error, while without the trailing newline it succeeds. -/
theorem trailing_newline_misparse_witness :
    ('\n' ∉ issLine1) ∧ ('\n' ∉ issLine2) ∧
    strLen (trim issLine1) = TLE_LINE_LENGTH ∧
    strLen (trim issLine2) = TLE_LINE_LENGTH ∧
    TwoLineElement.from_lines unitSys (issLine1 ++ '\n' :: (issLine2 ++ ['\n'])) =
      Except.error (Error.MalformedTwoLineElement
        ("Line 2 is the wrong length. Expected " ++ toString TLE_LINE_LENGTH ++
          ", but got " ++ toString 0)) ∧
    TwoLineElement.from_lines unitSys (issLine1 ++ '\n' :: issLine2) = Except.ok ⟨()⟩ :=
  ⟨by decide, by decide, by decide, by decide,
   (trailing_newline_misparse (S := unitSys) issLine1 issLine2 (by decide) (by decide)
      (by decide) (by decide)).2.2.1,
   (trailing_newline_misparse (S := unitSys) issLine1 issLine2 (by decide) (by decide)
      (by decide) (by decide)).2.2.2 () rfl⟩

end Sgp4Rs
